import Mathlib

/-!
The nfs-provisioner: a shallow embedding of `provisioner.go` and `main.go`.

The two source files are a thin strategy (`nfsProvisioner.Provision`,
`nfsProvisioner.Delete`) and the process entry point (`main`).  Both call into
the Go standard library (`path/filepath`, `os`), so the development starts with
a model of those calls over an explicit filesystem state, and then embeds the
two methods and `main` on top of it, statement by statement.
-/

namespace NfsProvisioner

/-! ## `path/filepath` (Unix) -/

namespace filepath

/-- Cut a byte string at every `/`; always returns at least one piece. -/
def splitSep : List Char → List (List Char)
  | [] => [[]]
  | c :: cs =>
    match splitSep cs with
    | [] => if c = '/' then [[], []] else [[c]]
    | p :: ps => if c = '/' then [] :: p :: ps else (c :: p) :: ps

/-- The pieces of a path as strings. -/
def elements (path : String) : List String :=
  (splitSep path.data).map String.mk

/-- Whether the path starts with the separator. -/
def IsAbs (path : String) : Bool :=
  match path.data with
  | c :: _ => c == '/'
  | [] => false

/-- One step of the lexical clean-up: `out` holds the elements kept so far,
innermost first. Empty elements and `.` vanish, `..` cancels the element before
it, is dropped at the root of a rooted path and is kept otherwise. -/
def cleanStep (rooted : Bool) (out : List String) (e : String) : List String :=
  if e = "" ∨ e = "." then out
  else if e = ".." then
    match out with
    | [] => if rooted then [] else [".."]
    | top :: rest => if top = ".." then ".." :: top :: rest else rest
  else e :: out

/-- The elements that `Clean` keeps, outermost first. -/
def cleanElements (path : String) : List String :=
  ((elements path).foldl (cleanStep (IsAbs path)) []).reverse

/-- Model of `filepath.Clean`: the shortest path name equivalent to `path` by
purely lexical processing. -/
def Clean (path : String) : String :=
  if IsAbs path then "/" ++ "/".intercalate (cleanElements path)
  else
    match cleanElements path with
    | [] => "."
    | es => "/".intercalate es

/-- Model of `filepath.Join` for two elements: everything from the first
non-empty element on is joined with `/` and cleaned; all empty gives `""`. -/
def Join (a b : String) : String :=
  if a ≠ "" then Clean (a ++ "/" ++ b)
  else if b ≠ "" then Clean b
  else ""

end filepath

/-! ## `os`: a filesystem namespace with `Mkdir` and `Remove`

The state is the set of names that exist, each a file or a directory, the
working directory that relative names start from, and two conditions of the
volume under it: mounted read-only, and out of space.  Permissions, symbolic
links and name-length limits are left out: the process is taken to own the tree
it works in.  Names are resolved lexically, which is what the kernel does on a
path without symbolic links once `filepath.Clean` has been through it, and every
path the embedded code hands to `os` comes out of `filepath.Join`. -/

namespace os

/-- The `syscall.Errno` values the modelled calls can report. -/
inductive Errno
  | EEXIST | ENOENT | ENOTDIR | EISDIR | ENOTEMPTY | EROFS | ENOSPC | EBUSY | EINVAL
  deriving DecidableEq, Repr

/-- What a name refers to. -/
inductive Kind
  | file | dir
  deriving DecidableEq, Repr

/-- A filesystem state. `nodes` lists every name below the root as its
components from the root; the root itself always exists and is a directory. -/
structure FS where
  nodes : List (List String × Kind)
  cwd : List String
  readOnly : Bool
  full : Bool
  deriving DecidableEq, Repr

/-- What is at an absolute name, if anything. -/
def FS.lookup (fs : FS) (p : List String) : Option Kind :=
  if p = [] then some Kind.dir else fs.nodes.lookup p

/-- One component of name resolution. -/
def resolveStep (acc : List String) (e : String) : List String :=
  if e = "" ∨ e = "." then acc
  else if e = ".." then acc.dropLast
  else acc ++ [e]

/-- The absolute name a path string denotes: a rooted path starts at the root,
any other at the working directory. -/
def FS.resolve (fs : FS) (path : String) : List String :=
  (filepath.elements path).foldl resolveStep (if filepath.IsAbs path then [] else fs.cwd)

/-- The last component of a path string, trailing separators ignored. -/
def lastElement (path : String) : Option String :=
  ((filepath.elements path).filter (fun e => e ≠ "")).getLast?

/-- Walk from `pre` down the components `rest`: every name passed through must
be a directory. The last component itself is not inspected. `none` is
success. -/
def FS.walk (fs : FS) : List String → List String → Option Errno
  | _, [] => none
  | pre, c :: rest =>
    match fs.lookup pre with
    | some Kind.dir => FS.walk fs (pre ++ [c]) rest
    | some Kind.file => some Errno.ENOTDIR
    | none => some Errno.ENOENT

/-- Whether some name lies directly inside `p`. -/
def FS.hasChild (fs : FS) (p : List String) : Bool :=
  fs.nodes.any (fun e => e.1 ≠ [] ∧ e.1.dropLast = p)

/-- The state without the name `p`. -/
def FS.erase (fs : FS) (p : List String) : FS :=
  { fs with nodes := fs.nodes.filter (fun e => e.1 ≠ p) }

/-- Model of `mkdir(2)`; `none` is success. A path whose last component is `.`
or `..` names something that exists. -/
def mkdir (fs : FS) (path : String) : Option Errno × FS :=
  if path = "" then (some Errno.ENOENT, fs)
  else
    match fs.walk [] (fs.resolve path) with
    | some e => (some e, fs)
    | none =>
      if lastElement path = some "." ∨ lastElement path = some ".." then (some Errno.EEXIST, fs)
      else
        match fs.lookup (fs.resolve path) with
        | some _ => (some Errno.EEXIST, fs)
        | none =>
          if fs.readOnly then (some Errno.EROFS, fs)
          else if fs.full then (some Errno.ENOSPC, fs)
          else (none, { fs with nodes := (fs.resolve path, Kind.dir) :: fs.nodes })

/-- Model of `unlink(2)`; `none` is success. The order is the kernel's: the
names above are walked, a path without an ordinary last component is refused,
then a read-only volume, and only then is the name itself looked up. -/
def unlink (fs : FS) (path : String) : Option Errno × FS :=
  if path = "" then (some Errno.ENOENT, fs)
  else
    match fs.walk [] (fs.resolve path) with
    | some e => (some e, fs)
    | none =>
      if lastElement path = some "." ∨ lastElement path = some ".." ∨ fs.resolve path = [] then
        (some Errno.EISDIR, fs)
      else if fs.readOnly then (some Errno.EROFS, fs)
      else
        match fs.lookup (fs.resolve path) with
        | none => (some Errno.ENOENT, fs)
        | some Kind.dir => (some Errno.EISDIR, fs)
        | some Kind.file => (none, fs.erase (fs.resolve path))

/-- Model of `rmdir(2)`; `none` is success. Only an empty directory goes, and
never through a path ending in `.` or `..`, nor the root. The order is the
kernel's: the names above are walked, the shape of the last component is
checked, then a read-only volume is refused, and only then is the name itself
looked up and its emptiness tested. -/
def rmdir (fs : FS) (path : String) : Option Errno × FS :=
  if path = "" then (some Errno.ENOENT, fs)
  else
    match fs.walk [] (fs.resolve path) with
    | some e => (some e, fs)
    | none =>
      if lastElement path = some ".." then (some Errno.ENOTEMPTY, fs)
      else if lastElement path = some "." then (some Errno.EINVAL, fs)
      else if fs.resolve path = [] then (some Errno.EBUSY, fs)
      else if fs.readOnly then (some Errno.EROFS, fs)
      else
        match fs.lookup (fs.resolve path) with
        | none => (some Errno.ENOENT, fs)
        | some Kind.file => (some Errno.ENOTDIR, fs)
        | some Kind.dir =>
          if fs.hasChild (fs.resolve path) then (some Errno.ENOTEMPTY, fs)
          else (none, fs.erase (fs.resolve path))

end os

/-- Go `error` values that the embedded code produces: the `*os.PathError` of a
failed system call, and `errors.Wrap(cause, msg)`. A nil `error` is `none`. -/
inductive GoError
  | PathError (Op Path : String) (Err : os.Errno)
  | Wrap (cause : GoError) (msg : String)
  deriving DecidableEq, Repr

namespace os

/-- Model of `os.Mkdir(name, perm)`: one `mkdir` call, its failure reported as
a `PathError` with op `mkdir`. The permission bits do not affect the namespace
and are not carried. -/
def Mkdir (name : String) (fs : FS) : Option GoError × FS :=
  match mkdir fs name with
  | (none, fs1) => (none, fs1)
  | (some e, _) => (some (GoError.PathError "mkdir" name e), fs)

/-- Model of `os.Remove(name)`: `unlink` first, then `rmdir`; when both fail the
`rmdir` error is reported unless it is `ENOTDIR`, in which case the `unlink`
error is. -/
def Remove (name : String) (fs : FS) : Option GoError × FS :=
  match unlink fs name with
  | (none, fs1) => (none, fs1)
  | (some e, _) =>
    match rmdir fs name with
    | (none, fs2) => (none, fs2)
    | (some e1, _) =>
      (some (GoError.PathError "remove" name (if e1 ≠ Errno.ENOTDIR then e1 else e)), fs)

/-- Every name in the state is reachable: all the names above it are
directories. -/
def FS.WF (fs : FS) : Prop :=
  ∀ e ∈ fs.nodes, fs.walk [] e.1 = none

instance (fs : FS) : Decidable fs.WF := by
  unfold FS.WF; infer_instance

end os

/-! ## The Kubernetes and controller-library types the code touches

Only the fields that `Provision` and `Delete` read or write are kept; a Go
pointer field is an `Option` (nil is `none`), a slice is a list, and
`v1.ResourceList` (a Go map) is an association list. -/

/-- Go `resource.Quantity`, reduced to what the copy in `Provision` needs: a
value and its zero value. -/
structure Quantity where
  value : Int
  format : String
  deriving DecidableEq, Repr

/-- The zero value of `resource.Quantity`, which indexing a map yields for a
missing key. -/
def Quantity.zero : Quantity := { value := 0, format := "" }

/-- Go `v1.ResourceName`. -/
abbrev ResourceName := String

/-- Go `v1.ResourceStorage`. -/
def ResourceStorage : ResourceName := "storage"

/-- Go `v1.ResourceList`, a map from resource name to quantity. -/
abbrev ResourceList := List (ResourceName × Quantity)

/-- Go map indexing `m[k]` on a `ResourceList`: the zero quantity when the key
is missing (also on a nil map). -/
def ResourceList.index (m : ResourceList) (k : ResourceName) : Quantity :=
  (m.lookup k).getD Quantity.zero

/-- Go `v1.PersistentVolumeReclaimPolicy`, a string type. -/
abbrev PersistentVolumeReclaimPolicy := String

/-- Go `v1.PersistentVolumeReclaimRetain`. -/
def PersistentVolumeReclaimRetain : PersistentVolumeReclaimPolicy := "Retain"

/-- Go `v1.PersistentVolumeReclaimDelete`. -/
def PersistentVolumeReclaimDelete : PersistentVolumeReclaimPolicy := "Delete"

/-- Go `v1.PersistentVolumeAccessMode`, a string type. -/
abbrev PersistentVolumeAccessMode := String

/-- Go `storagev1.StorageClass`. -/
structure StorageClass where
  ReclaimPolicy : Option PersistentVolumeReclaimPolicy
  MountOptions : List String
  deriving DecidableEq, Repr

/-- Go `v1.PersistentVolumeClaim`: its name and, from its spec, the access
modes and `Resources.Requests`. -/
structure PersistentVolumeClaim where
  Name : String
  AccessModes : List PersistentVolumeAccessMode
  Requests : ResourceList
  deriving DecidableEq, Repr

/-- Go `controller.ProvisionOptions`. -/
structure ProvisionOptions where
  StorageClass : Option StorageClass
  PVName : String
  PVC : Option PersistentVolumeClaim
  deriving DecidableEq, Repr

/-- Go `v1.NFSVolumeSource`. -/
structure NFSVolumeSource where
  Server : String
  Path : String
  ReadOnly : Bool
  deriving DecidableEq, Repr

/-- Go `v1.PersistentVolumeSpec`. -/
structure PersistentVolumeSpec where
  PersistentVolumeReclaimPolicy : PersistentVolumeReclaimPolicy
  AccessModes : List PersistentVolumeAccessMode
  MountOptions : List String
  Capacity : ResourceList
  NFS : Option NFSVolumeSource
  deriving DecidableEq, Repr

/-- Go `v1.PersistentVolume`. -/
structure PersistentVolume where
  Name : String
  Spec : PersistentVolumeSpec
  deriving DecidableEq, Repr

/-- Go `controller.ProvisioningState`. -/
inductive ProvisioningState
  | ProvisioningInBackground
  | ProvisioningFinished
  | ProvisioningNoChange
  | ProvisioningReschedule
  deriving DecidableEq, Repr

/-- How a Go call ends: it returns its results, or it panics. -/
inductive Outcome (α : Type)
  | returned (a : α)
  | panicked (msg : String)
  deriving DecidableEq, Repr

/-- The run-time panic of dereferencing a nil pointer. -/
def nilDeref : String :=
  "runtime error: invalid memory address or nil pointer dereference"

/-! ## `provisioner.go` -/

/-- The strategy's configuration (Go `nfsProvisioner`). -/
structure nfsProvisioner where
  server : String
  rootMountPath : String
  mountPath : String
  deriving DecidableEq, Repr

/-- What `Provision` returns: `(*v1.PersistentVolume, ProvisioningState, error)`. -/
abbrev ProvisionResult := Option PersistentVolume × ProvisioningState × Option GoError

/-- The method `nfsProvisioner.Provision`: make the directory
`Join(mountPath, PVName)`; on failure return the wrapped error; otherwise build
the volume object, which dereferences `opt.StorageClass`, its `ReclaimPolicy`
and `opt.PVC`. -/
def nfsProvisioner.Provision (nfs : nfsProvisioner) (opt : ProvisionOptions) (fs : os.FS) :
    Outcome ProvisionResult × os.FS :=
  let mountPath := filepath.Join nfs.mountPath opt.PVName
  match os.Mkdir mountPath fs with
  | (some err, fs1) =>
    (.returned (none, ProvisioningState.ProvisioningFinished, some (GoError.Wrap err "mkdir error")), fs1)
  | (none, fs1) =>
    match opt.StorageClass with
    | none => (.panicked nilDeref, fs1)
    | some sc =>
      match sc.ReclaimPolicy with
      | none => (.panicked nilDeref, fs1)
      | some policy =>
        match opt.PVC with
        | none => (.panicked nilDeref, fs1)
        | some pvc =>
          (.returned
            (some
              { Name := opt.PVName
                Spec :=
                  { PersistentVolumeReclaimPolicy := policy
                    AccessModes := pvc.AccessModes
                    MountOptions := sc.MountOptions
                    Capacity := [(ResourceStorage, ResourceList.index pvc.Requests ResourceStorage)]
                    NFS := some
                      { Server := nfs.server
                        Path := filepath.Join nfs.rootMountPath opt.PVName
                        ReadOnly := false } } },
             ProvisioningState.ProvisioningFinished, none), fs1)

/-- The method `nfsProvisioner.Delete`: `os.Remove(Join(mountPath, pv.Name))`,
its error returned as is. `pv` is a pointer. -/
def nfsProvisioner.Delete (nfs : nfsProvisioner) (pv : Option PersistentVolume) (fs : os.FS) :
    Outcome (Option GoError) × os.FS :=
  match pv with
  | none => (.panicked nilDeref, fs)
  | some v =>
    match os.Remove (filepath.Join nfs.mountPath v.Name) fs with
    | (err, fs1) => (.returned err, fs1)

/-! ## `main.go` -/

/-- The parsed command-line flags. -/
structure Flags where
  server : String
  serverPath : String
  mountPath : String
  provisoner : String
  kubeconfig : String
  leaderElection : Bool
  deriving DecidableEq, Repr

/-- The flag defaults declared in `main.go`. -/
def Flags.defaults : Flags :=
  { server := "", serverPath := "", mountPath := "/mount", provisoner := "nfs",
    kubeconfig := "", leaderElection := false }

/-- The client-go calls `initK8sClient` makes, as answers of the environment:
`clientcmd.BuildConfigFromFlags` and `kubernetes.NewForConfig`. `Config` and
`Clientset` are whatever those libraries hand back. -/
structure ClientEnv (Config Clientset : Type) where
  BuildConfigFromFlags : String → String → Except String Config
  NewForConfig : Config → Except String Clientset

/-- What the process does that can be seen from outside, in order. -/
inductive Event (Clientset : Type)
  | logPrintf (msg : String)
  | logFatalf (msg : String)
  | buildConfigFromFlags (masterUrl kubeconfig : String)
  | newForConfig
  | newStrategy (nfs : nfsProvisioner)
  | runController (client : Clientset) (provisionerName : String) (nfs : nfsProvisioner)
      (leaderElection : Bool)
  deriving DecidableEq, Repr

/-- The function `initK8sClient`, with the calls it makes recorded. -/
def initK8sClient {Config Clientset : Type} (env : ClientEnv Config Clientset) (config : String) :
    List (Event Clientset) × Except String Clientset :=
  match env.BuildConfigFromFlags "" config with
  | .error err =>
    ([Event.buildConfigFromFlags "" config], .error ("BuildConfigFromFlags error: " ++ err))
  | .ok cfg => ([Event.buildConfigFromFlags "" config, Event.newForConfig], env.NewForConfig cfg)

/-- The function `main` after `flag.Parse()`: the trace of what it does.
`log.Fatalf` ends the process, so nothing follows a `logFatalf`. -/
def main {Config Clientset : Type} (env : ClientEnv Config Clientset) (f : Flags) :
    List (Event Clientset) :=
  let t0 : List (Event Clientset) :=
    [Event.logPrintf ("nfs server: " ++ f.server ++ ", rootMountPath: " ++ f.serverPath)]
  if f.server = "" ∨ f.serverPath = "" ∨ f.mountPath = "" then
    t0 ++ [Event.logFatalf "flag server/serverPath/mountPath not set"]
  else
    match initK8sClient env f.kubeconfig with
    | (t1, .error err) => t0 ++ t1 ++ [Event.logFatalf ("initK8sClient error: " ++ err)]
    | (t1, .ok k8sClient) =>
      let nfs : nfsProvisioner :=
        { server := f.server, rootMountPath := f.serverPath, mountPath := f.mountPath }
      t0 ++ t1 ++ [Event.newStrategy nfs,
        Event.runController k8sClient f.provisoner nfs f.leaderElection]

/-! ## Predicates on filesystem states used in the statements -/

namespace os

/-- The path names an existing directory, as `stat` would report it: it is not
empty, every name above it is a directory, and the name itself is one. -/
def FS.DirExists (fs : FS) (path : String) : Prop :=
  path ≠ "" ∧ fs.walk [] (fs.resolve path) = none ∧ fs.lookup (fs.resolve path) = some Kind.dir

instance (fs : FS) (path : String) : Decidable (fs.DirExists path) := by
  unfold FS.DirExists; infer_instance

/-- The path names an ordinary entry: not the root, and not spelled with a
final `.` or `..`. -/
def FS.Ordinary (fs : FS) (path : String) : Prop :=
  lastElement path ≠ some "." ∧ lastElement path ≠ some ".." ∧ fs.resolve path ≠ []

instance (fs : FS) (path : String) : Decidable (fs.Ordinary path) := by
  unfold FS.Ordinary; infer_instance

end os

/-! ## The scenario of the specification, as concrete inputs

Claim `pvc-1` asks for 5Gi under class `standard` (delete) or `standard-retain`
(retain), and is provisioned as volume `pv-pvc-1` by a strategy whose export root
is `root` and whose local mount is `/mount`. -/

namespace scenario

/-- The strategy configuration. -/
def nfs : nfsProvisioner := { server := "10.0.0.1", rootMountPath := "root", mountPath := "/mount" }

/-- Another configuration, for runs that must not depend on it. -/
def nfsOther : nfsProvisioner :=
  { server := "nfs.example", rootMountPath := "/export", mountPath := "/srv" }

/-- The quantity 5Gi. -/
def fiveGi : Quantity := { value := 5368709120, format := "BinarySI" }

/-- Class `standard`: delete on release. -/
def standard : StorageClass :=
  { ReclaimPolicy := some PersistentVolumeReclaimDelete, MountOptions := ["vers=4.1"] }

/-- Class `standard-retain`: retain on release. -/
def standardRetain : StorageClass :=
  { ReclaimPolicy := some PersistentVolumeReclaimRetain, MountOptions := [] }

/-- A class object whose reclaim policy pointer is nil. -/
def malformed : StorageClass := { ReclaimPolicy := none, MountOptions := [] }

/-- Claim `pvc-1`. -/
def pvc1 : PersistentVolumeClaim :=
  { Name := "pvc-1", AccessModes := ["ReadWriteMany"], Requests := [("storage", fiveGi)] }

/-- The request the controller makes for `pvc-1` under `standard`. -/
def opt : ProvisionOptions :=
  { StorageClass := some standard, PVName := "pv-pvc-1", PVC := some pvc1 }

/-- The same request under `standard-retain`. -/
def optRetain : ProvisionOptions :=
  { StorageClass := some standardRetain, PVName := "pv-pvc-1", PVC := some pvc1 }

/-- The same request with the malformed class. -/
def optMalformed : ProvisionOptions :=
  { StorageClass := some malformed, PVName := "pv-pvc-1", PVC := some pvc1 }

/-- The volume `Provision` builds for `opt` under `nfs`. -/
def pv : PersistentVolume :=
  { Name := "pv-pvc-1"
    Spec :=
      { PersistentVolumeReclaimPolicy := PersistentVolumeReclaimDelete
        AccessModes := ["ReadWriteMany"]
        MountOptions := ["vers=4.1"]
        Capacity := [("storage", fiveGi)]
        NFS := some { Server := "10.0.0.1", Path := "root/pv-pvc-1", ReadOnly := false } } }

/-- The same volume with reclaim policy retain. -/
def pvRetain : PersistentVolume :=
  { pv with Spec := { pv.Spec with
      PersistentVolumeReclaimPolicy := PersistentVolumeReclaimRetain, MountOptions := [] } }

/-- A writable filesystem holding the directory `/mount` and a file in another
place. -/
def fsFresh : os.FS :=
  { nodes := [(["mount"], os.Kind.dir), (["etc"], os.Kind.dir), (["etc", "exports"], os.Kind.file)]
    cwd := [], readOnly := false, full := false }

/-- The state `fsFresh` with the directory `/mount/pv-pvc-1` in it. -/
def fsProvisioned : os.FS :=
  { fsFresh with nodes := (["mount", "pv-pvc-1"], os.Kind.dir) :: fsFresh.nodes }

/-- The state `fsProvisioned` after a workload wrote a file into the volume. -/
def fsUsed : os.FS :=
  { fsProvisioned with
    nodes := (["mount", "pv-pvc-1", "data.db"], os.Kind.file) :: fsProvisioned.nodes }

/-- The state `fsUsed` on a volume mounted read-only. -/
def fsReadOnly : os.FS := { fsUsed with readOnly := true }

/-- The state `fsFresh` with no space left. -/
def fsFull : os.FS := { fsFresh with full := true }

/-- A state in which `/mount` is a regular file. -/
def fsMountIsFile : os.FS :=
  { nodes := [(["mount"], os.Kind.file)], cwd := [], readOnly := false, full := false }

/-- An unrelated filesystem, with the directory `/srv` as working directory. -/
def fsOther : os.FS :=
  { nodes := [(["srv"], os.Kind.dir)], cwd := ["srv"], readOnly := false, full := false }

/-- The state `fsOther` with the directory `/srv/pv-pvc-1` in it. -/
def fsOtherProvisioned : os.FS :=
  { fsOther with nodes := (["srv", "pv-pvc-1"], os.Kind.dir) :: fsOther.nodes }

/-- The volume `Provision` builds for `optRetain` under `nfsOther`. -/
def pvOther : PersistentVolume :=
  { Name := "pv-pvc-1"
    Spec :=
      { PersistentVolumeReclaimPolicy := PersistentVolumeReclaimRetain
        AccessModes := ["ReadWriteMany"]
        MountOptions := []
        Capacity := [("storage", fiveGi)]
        NFS := some { Server := "nfs.example", Path := "/export/pv-pvc-1", ReadOnly := false } } }

/-- Flags with the three required values set. -/
def flags : Flags :=
  { Flags.defaults with server := "10.0.0.1", serverPath := "/export", kubeconfig := "/no/such/file" }

/-- An environment in which the cluster configuration cannot be loaded. -/
def envNoCluster : ClientEnv Unit Unit :=
  { BuildConfigFromFlags := fun _ _ => .error "stat /no/such/file: no such file or directory"
    NewForConfig := fun _ => .ok () }

/-- An environment in which the cluster client is built. -/
def envCluster : ClientEnv Unit Unit :=
  { BuildConfigFromFlags := fun _ _ => .ok ()
    NewForConfig := fun _ => .ok () }

end scenario

namespace os

/-! ## Facts about the filesystem model -/

theorem lookup_nil (fs : FS) : fs.lookup [] = some Kind.dir := by
  simp [FS.lookup]

theorem resolve_nodes (fs : FS) (ns : List (List String × Kind)) (path : String) :
    FS.resolve { fs with nodes := ns } path = fs.resolve path := rfl

theorem lookup_cons_self (fs : FS) (p : List String) (k : Kind) (hp : p ≠ []) :
    FS.lookup { fs with nodes := (p, k) :: fs.nodes } p = some k := by
  simp [FS.lookup, hp, List.lookup]

theorem lookup_cons_of_ne (fs : FS) (p q : List String) (k : Kind) (hq : q ≠ p) :
    FS.lookup { fs with nodes := (p, k) :: fs.nodes } q = fs.lookup q := by
  unfold FS.lookup
  by_cases h : q = []
  · simp [h]
  · have hb : (q == p) = false := by simpa using hq
    simp [h, List.lookup, hb]

theorem walk_eq_none_iff (fs : FS) (rest : List String) :
    ∀ pre : List String, fs.walk pre rest = none ↔
      ∀ i, i < rest.length → fs.lookup (pre ++ rest.take i) = some Kind.dir := by
  induction rest with
  | nil => intro pre; simp [FS.walk]
  | cons c r ih =>
    intro pre
    constructor
    · intro h i hi
      unfold FS.walk at h
      cases hl : fs.lookup pre with
      | none => simp [hl] at h
      | some k =>
        cases k with
        | file => simp [hl] at h
        | dir =>
          simp only [hl] at h
          cases i with
          | zero => simpa using hl
          | succ j =>
            have hj : j < r.length := by simpa using hi
            have := (ih (pre ++ [c])).1 h j hj
            simpa using this
    · intro h
      have h0 : fs.lookup pre = some Kind.dir := by
        have := h 0 (by simp)
        simpa using this
      unfold FS.walk
      simp only [h0]
      refine (ih (pre ++ [c])).2 ?_
      intro j hj
      have := h (j + 1) (by simpa using hj)
      simpa using this

theorem walk_mono (fs fs1 : FS)
    (h : ∀ q, fs.lookup q = some Kind.dir → fs1.lookup q = some Kind.dir)
    (pre rest : List String) (hw : fs.walk pre rest = none) : fs1.walk pre rest = none := by
  rw [walk_eq_none_iff] at hw ⊢
  intro i hi
  exact h _ (hw i hi)

theorem walk_parent (fs : FS) (q : List String) (hq : q ≠ []) (hw : fs.walk [] q = none) :
    fs.lookup q.dropLast = some Kind.dir := by
  rw [walk_eq_none_iff] at hw
  have hlen : 0 < q.length := List.length_pos.mpr hq
  have := hw (q.length - 1) (by omega)
  simpa [List.dropLast_eq_take] using this

theorem dropLast_ne_self (p : List String) (hp : p ≠ []) : p.dropLast ≠ p := by
  intro h
  have hlen : 0 < p.length := List.length_pos.mpr hp
  have := congrArg List.length h
  simp at this
  omega

theorem lookup_none_not_mem (fs : FS) (p : List String) (h : fs.lookup p = none) :
    ∀ e ∈ fs.nodes, e.1 ≠ p := by
  intro e he hep
  unfold FS.lookup at h
  by_cases hp : p = []
  · simp [hp] at h
  · simp only [hp, if_false] at h
    rw [List.lookup_eq_none_iff] at h
    have := h e he
    simp [hep] at this

/-- What a successful `mkdir` says about the state before it, and what it
leaves. -/
theorem mkdir_ok (fs fs1 : FS) (path : String) (h : mkdir fs path = (none, fs1)) :
    path ≠ "" ∧ fs.walk [] (fs.resolve path) = none ∧
    lastElement path ≠ some "." ∧ lastElement path ≠ some ".." ∧
    fs.lookup (fs.resolve path) = none ∧ fs.readOnly = false ∧ fs.full = false ∧
    fs1 = { fs with nodes := (fs.resolve path, Kind.dir) :: fs.nodes } := by
  unfold mkdir at h
  split at h
  · simp at h
  · rename_i hne
    split at h
    · simp at h
    · rename_i hw
      split at h
      · simp at h
      · rename_i hlast
        split at h
        · simp at h
        · rename_i hl
          split at h
          · simp at h
          · rename_i hro
            split at h
            · simp at h
            · rename_i hfull
              simp only [Prod.mk.injEq, true_and] at h
              refine ⟨hne, hw, ?_, ?_, hl, ?_, ?_, h.symm⟩
              · exact fun hc => hlast (Or.inl hc)
              · exact fun hc => hlast (Or.inr hc)
              · simpa using hro
              · simpa using hfull

/-- A failing `mkdir` leaves the state as it was. -/
theorem mkdir_snd_of_error (fs : FS) (path : String) (e : Errno) (fs1 : FS)
    (h : mkdir fs path = (some e, fs1)) : fs1 = fs := by
  unfold mkdir at h
  repeat' split at h
  all_goals simp_all

/-- On an existing directory `mkdir` reports `EEXIST`. -/
theorem mkdir_of_dirExists (fs : FS) (path : String) (h : fs.DirExists path) :
    mkdir fs path = (some Errno.EEXIST, fs) := by
  obtain ⟨hne, hw, hl⟩ := h
  unfold mkdir
  simp only [hne, if_false, hw, hl]
  split <;> rfl

/-- On a directory `unlink` fails and changes nothing. -/
theorem unlink_of_dirExists (fs : FS) (path : String) (h : fs.DirExists path) :
    ∃ e, unlink fs path = (some e, fs) := by
  obtain ⟨hne, hw, hl⟩ := h
  unfold unlink
  simp only [hne, if_false, hw, hl]
  split
  · exact ⟨_, rfl⟩
  · split
    · exact ⟨_, rfl⟩
    · exact ⟨_, rfl⟩

/-- An empty ordinary directory on a writable volume is removed by `rmdir`. -/
theorem rmdir_empty (fs : FS) (path : String) (h : fs.DirExists path) (ho : fs.Ordinary path)
    (hc : fs.hasChild (fs.resolve path) = false) (hro : fs.readOnly = false) :
    rmdir fs path = (none, fs.erase (fs.resolve path)) := by
  obtain ⟨hne, hw, hl⟩ := h
  obtain ⟨h1, h2, h3⟩ := ho
  unfold rmdir
  simp [hne, hw, hl, h1, h2, h3, hc, hro]

/-- A directory with something in it, on a writable volume, is refused by
`rmdir` with `ENOTEMPTY`. -/
theorem rmdir_nonempty (fs : FS) (path : String) (h : fs.DirExists path) (ho : fs.Ordinary path)
    (hc : fs.hasChild (fs.resolve path) = true) (hro : fs.readOnly = false) :
    rmdir fs path = (some Errno.ENOTEMPTY, fs) := by
  obtain ⟨hne, hw, hl⟩ := h
  obtain ⟨h1, h2, h3⟩ := ho
  unfold rmdir
  simp [hne, hw, hl, h1, h2, h3, hc, hro]

/-- On a read-only volume `rmdir` of an ordinary name is refused with `EROFS`,
whatever is at the name. -/
theorem rmdir_readOnly (fs : FS) (path : String) (hne : path ≠ "")
    (hw : fs.walk [] (fs.resolve path) = none) (ho : fs.Ordinary path)
    (hro : fs.readOnly = true) : rmdir fs path = (some Errno.EROFS, fs) := by
  obtain ⟨h1, h2, h3⟩ := ho
  unfold rmdir
  simp [hne, hw, h1, h2, h3, hro]

theorem Remove_empty_dir (fs : FS) (path : String) (h : fs.DirExists path)
    (ho : fs.Ordinary path) (hc : fs.hasChild (fs.resolve path) = false)
    (hro : fs.readOnly = false) :
    Remove path fs = (none, fs.erase (fs.resolve path)) := by
  obtain ⟨e, he⟩ := unlink_of_dirExists fs path h
  unfold Remove
  rw [he, rmdir_empty fs path h ho hc hro]

theorem Remove_nonempty_dir (fs : FS) (path : String) (h : fs.DirExists path)
    (ho : fs.Ordinary path) (hc : fs.hasChild (fs.resolve path) = true)
    (hro : fs.readOnly = false) :
    Remove path fs = (some (GoError.PathError "remove" path Errno.ENOTEMPTY), fs) := by
  obtain ⟨e, he⟩ := unlink_of_dirExists fs path h
  unfold Remove
  rw [he, rmdir_nonempty fs path h ho hc hro]
  simp

/-- On a read-only volume `Remove` of an existing ordinary directory reports
`EROFS` and changes nothing, empty or not. -/
theorem Remove_readOnly_dir (fs : FS) (path : String) (h : fs.DirExists path)
    (ho : fs.Ordinary path) (hro : fs.readOnly = true) :
    Remove path fs = (some (GoError.PathError "remove" path Errno.EROFS), fs) := by
  obtain ⟨e, he⟩ := unlink_of_dirExists fs path h
  unfold Remove
  rw [he, rmdir_readOnly fs path h.1 h.2.1 ho hro]
  simp

theorem lookup_erase_self (fs : FS) (p : List String) (hp : p ≠ []) :
    (fs.erase p).lookup p = none := by
  unfold FS.lookup FS.erase
  simp only [hp, if_false]
  rw [List.lookup_eq_none_iff]
  intro e he
  have := (List.mem_filter.mp he).2
  simp at this
  simpa using fun h => this h.symm

/-- In a well-formed state a name that does not exist has nothing inside it. -/
theorem hasChild_of_absent (fs : FS) (hwf : fs.WF) (p : List String)
    (hl : fs.lookup p = none) : fs.hasChild p = false := by
  unfold FS.hasChild
  rw [List.any_eq_false]
  intro e he
  simp only [decide_eq_true_eq, not_and]
  intro hne hd
  have := walk_parent fs e.1 hne (hwf e he)
  rw [hd, hl] at this
  cases this

theorem filter_ne_self (p : List String) (ns : List (List String × Kind))
    (hns : ∀ e ∈ ns, e.1 ≠ p) : ns.filter (fun e => e.1 ≠ p) = ns := by
  induction ns with
  | nil => rfl
  | cons a t ih =>
    have ha : decide (a.1 ≠ p) = true := decide_eq_true (hns a (List.mem_cons_self _ _))
    rw [List.filter_cons]
    simp only [ha, if_true]
    rw [ih (fun e he => hns e (List.mem_cons_of_mem _ he))]

/-- Erasing a name that was just added, and was not there before, gives the
state back. -/
theorem erase_cons_absent (fs : FS) (p : List String) (k : Kind)
    (hns : ∀ e ∈ fs.nodes, e.1 ≠ p) :
    FS.erase { fs with nodes := (p, k) :: fs.nodes } p = fs := by
  have hp : decide ((p, k).1 ≠ p) = false := decide_eq_false (fun h => h rfl)
  unfold FS.erase
  show ({ fs with nodes := List.filter _ ((p, k) :: fs.nodes) } : FS) = fs
  rw [List.filter_cons]
  simp only [hp, Bool.false_eq_true, if_false]
  rw [filter_ne_self p fs.nodes hns]

/-- After a successful `mkdir` the path names an existing directory. -/
theorem mkdir_dirExists (fs fs1 : FS) (path : String) (h : mkdir fs path = (none, fs1)) :
    fs1.DirExists path := by
  obtain ⟨hne, hw, _, _, hl, _, _, hfs⟩ := mkdir_ok fs fs1 path h
  have hp : fs.resolve path ≠ [] := by
    intro hnil
    rw [hnil, lookup_nil] at hl
    cases hl
  have hres : fs1.resolve path = fs.resolve path := by rw [hfs]; rfl
  refine ⟨hne, ?_, ?_⟩
  · rw [hres]
    refine walk_mono fs _ ?_ [] _ hw
    intro q hq
    by_cases hqp : q = fs.resolve path
    · rw [hqp, hl] at hq
      cases hq
    · rw [hfs, lookup_cons_of_ne fs _ q _ hqp]
      exact hq
  · rw [hres, hfs]
    exact lookup_cons_self fs _ _ hp

/-- After a successful `mkdir` in a well-formed state, `Remove` on the same path
succeeds and gives back the state before the `mkdir`. -/
theorem Remove_after_mkdir (fs fs1 : FS) (path : String) (hwf : fs.WF)
    (h : mkdir fs path = (none, fs1)) : Remove path fs1 = (none, fs) := by
  obtain ⟨_, _, hd1, hd2, hl, hro, _, hfs⟩ := mkdir_ok fs fs1 path h
  have hp : fs.resolve path ≠ [] := by
    intro hnil
    rw [hnil, lookup_nil] at hl
    cases hl
  have hres : fs1.resolve path = fs.resolve path := by rw [hfs]; rfl
  have hro1 : fs1.readOnly = false := by rw [hfs]; exact hro
  have hnodes : fs1.nodes = (fs.resolve path, Kind.dir) :: fs.nodes := by rw [hfs]
  have hex : fs1.DirExists path := mkdir_dirExists fs fs1 path h
  have hord : fs1.Ordinary path := ⟨hd1, hd2, by rw [hres]; exact hp⟩
  have hchild : fs1.hasChild (fs1.resolve path) = false := by
    rw [hres]
    have hold := hasChild_of_absent fs hwf _ hl
    unfold FS.hasChild at hold ⊢
    rw [hnodes, List.any_cons, hold, Bool.or_false]
    apply decide_eq_false
    intro hc
    exact dropLast_ne_self _ hp hc.2
  rw [Remove_empty_dir fs1 path hex hord hchild hro1, hres, hfs]
  rw [erase_cons_absent fs _ _ (lookup_none_not_mem fs _ hl)]

/-- A successful `mkdir` keeps the state well-formed. -/
theorem WF_mkdir (fs fs1 : FS) (path : String) (hwf : fs.WF)
    (h : mkdir fs path = (none, fs1)) : fs1.WF := by
  obtain ⟨_, hw, _, _, hl, _, _, hfs⟩ := mkdir_ok fs fs1 path h
  have hmono : ∀ q, fs.lookup q = some Kind.dir → fs1.lookup q = some Kind.dir := by
    intro q hq
    by_cases hqp : q = fs.resolve path
    · rw [hqp, hl] at hq
      cases hq
    · rw [hfs, lookup_cons_of_ne fs _ q _ hqp]
      exact hq
  have hnodes : fs1.nodes = (fs.resolve path, Kind.dir) :: fs.nodes := by rw [hfs]
  intro e he
  rw [hnodes] at he
  rcases List.mem_cons.mp he with heq | hmem
  · rw [heq]
    exact walk_mono fs fs1 hmono [] _ hw
  · exact walk_mono fs fs1 hmono [] _ (hwf e hmem)

theorem lookup_erase_of_ne (fs : FS) (p q : List String) (hq : q ≠ p) :
    (fs.erase p).lookup q = fs.lookup q := by
  unfold FS.lookup FS.erase
  by_cases h : q = []
  · simp only [h, if_true]
  · simp only [h, if_false]
    induction fs.nodes with
    | nil => rfl
    | cons a t ih =>
      obtain ⟨k, v⟩ := a
      rw [List.filter_cons]
      by_cases hk : k = p
      · have hd : decide ((k, v).1 ≠ p) = false := decide_eq_false (fun hc => hc hk)
        have hb : (q == k) = false := by
          rw [hk]
          simpa using hq
        simp only [hd, Bool.false_eq_true, if_false, List.lookup_cons, hb]
        exact ih
      · have hd : decide ((k, v).1 ≠ p) = true := decide_eq_true hk
        simp only [hd, if_true, List.lookup_cons]
        cases (q == k)
        · exact ih
        · rfl

theorem mem_of_lookup (fs : FS) (q : List String) (k : Kind) (hq : q ≠ [])
    (h : fs.lookup q = some k) : ∃ e ∈ fs.nodes, e.1 = q := by
  unfold FS.lookup at h
  simp only [hq, if_false] at h
  by_contra hcon
  have hnone : fs.nodes.lookup q = none := by
    rw [List.lookup_eq_none_iff]
    intro e he
    have : e.1 ≠ q := fun hc => hcon ⟨e, he, hc⟩
    simpa using fun hc => this hc.symm
  rw [hnone] at h
  cases h

theorem dropLast_take_succ (l : List String) (i : Nat) (hi : i < l.length) :
    (l.take (i + 1)).dropLast = l.take i := by
  rw [List.dropLast_eq_take, List.take_take, List.length_take]
  congr 1
  omega

/-- Erasing a name that no remaining name passes through keeps the state
well-formed. -/
theorem WF_erase (fs : FS) (p : List String) (hwf : fs.WF)
    (hthrough : ∀ e ∈ fs.nodes, e.1 ≠ p → ∀ i, i < e.1.length → e.1.take i ≠ p) :
    (fs.erase p).WF := by
  intro e he
  have hmem : e ∈ fs.nodes ∧ decide (e.1 ≠ p) = true := List.mem_filter.mp he
  have hne : e.1 ≠ p := of_decide_eq_true hmem.2
  have hw := hwf e hmem.1
  rw [walk_eq_none_iff] at hw ⊢
  intro i hi
  have := hw i hi
  simp only [List.nil_append] at this ⊢
  rw [lookup_erase_of_ne fs p _ (hthrough e hmem.1 hne i hi)]
  exact this

/-- What a successful `unlink` says and leaves. -/
theorem unlink_ok (fs fs1 : FS) (path : String) (h : unlink fs path = (none, fs1)) :
    fs.lookup (fs.resolve path) = some Kind.file ∧ fs1 = fs.erase (fs.resolve path) := by
  unfold unlink at h
  split at h
  · simp at h
  · split at h
    · simp at h
    · split at h
      · simp at h
      · split at h
        · simp at h
        · split at h
          · simp at h
          · simp at h
          · rename_i hl
            simp only [Prod.mk.injEq, true_and] at h
            exact ⟨hl, h.symm⟩

/-- What a successful `rmdir` says and leaves. -/
theorem rmdir_ok (fs fs1 : FS) (path : String) (h : rmdir fs path = (none, fs1)) :
    fs.lookup (fs.resolve path) = some Kind.dir ∧ fs.resolve path ≠ [] ∧
    fs.hasChild (fs.resolve path) = false ∧ fs1 = fs.erase (fs.resolve path) := by
  unfold rmdir at h
  split at h
  · simp at h
  · split at h
    · simp at h
    · split at h
      · simp at h
      · split at h
        · simp at h
        · split at h
          · simp at h
          · rename_i hroot
            split at h
            · simp at h
            · split at h
              · simp at h
              · simp at h
              · rename_i hl
                split at h
                · simp at h
                · rename_i hchild
                  simp only [Prod.mk.injEq, true_and] at h
                  exact ⟨hl, hroot, by simpa using hchild, h.symm⟩

/-- A successful `Remove` keeps the state well-formed, and a failing one leaves
it as it was. -/
theorem WF_Remove (fs fs1 : FS) (path : String) (err : Option GoError) (hwf : fs.WF)
    (h : Remove path fs = (err, fs1)) : fs1.WF := by
  unfold Remove at h
  cases hu : unlink fs path with
  | mk r fsu =>
    cases r with
    | none =>
      simp only [hu, Prod.mk.injEq] at h
      obtain ⟨hl, hfs⟩ := unlink_ok fs fsu path hu
      rw [← h.2, hfs]
      refine WF_erase fs _ hwf ?_
      intro e he _ i hi hc
      have hw := hwf e he
      rw [walk_eq_none_iff] at hw
      have := hw i hi
      simp only [List.nil_append] at this
      rw [hc, hl] at this
      cases this
    | some eu =>
      cases hr : rmdir fs path with
      | mk r2 fsr =>
        cases r2 with
        | some er =>
          simp only [hu, hr, Prod.mk.injEq] at h
          rw [← h.2]
          exact hwf
        | none =>
          simp only [hu, hr, Prod.mk.injEq] at h
          obtain ⟨_, hroot, hchild, hfs⟩ := rmdir_ok fs fsr path hr
          rw [← h.2, hfs]
          refine WF_erase fs _ hwf ?_
          intro e he _ i hi hc
          have hw := hwf e he
          rw [walk_eq_none_iff] at hw
          unfold FS.hasChild at hchild
          rw [List.any_eq_false] at hchild
          have hdl := dropLast_take_succ e.1 i hi
          have hne1 : e.1.take (i + 1) ≠ [] := by
            intro hnil
            have := congrArg List.length hnil
            simp only [List.length_take, List.length_nil] at this
            omega
          by_cases hlast : i + 1 < e.1.length
          · have hdir := hw (i + 1) hlast
            simp only [List.nil_append] at hdir
            obtain ⟨c, hcmem, hceq⟩ := mem_of_lookup fs _ _ hne1 hdir
            refine hchild c hcmem (decide_eq_true ⟨?_, ?_⟩)
            · rw [hceq]; exact hne1
            · rw [hceq, hdl]; exact hc
          · have hfull : e.1.take (i + 1) = e.1 := List.take_of_length_le (by omega)
            rw [hfull] at hdl hne1
            exact hchild e he (decide_eq_true ⟨hne1, by rw [hdl]; exact hc⟩)

end os

/-! ## Facts about `Provision` and `Delete` -/

/-- A successful `Mkdir` is a successful `mkdir`. -/
theorem Mkdir_ok (fs fs1 : os.FS) (path : String) (h : os.Mkdir path fs = (none, fs1)) :
    os.mkdir fs path = (none, fs1) := by
  unfold os.Mkdir at h
  split at h
  · rename_i fs2 heq
    simp only [Prod.mk.injEq, true_and] at h
    rw [heq, h]
  · simp at h

/-- A `Mkdir` on an existing directory fails with `EEXIST` and changes nothing. -/
theorem Mkdir_of_dirExists (fs : os.FS) (path : String) (h : fs.DirExists path) :
    os.Mkdir path fs = (some (GoError.PathError "mkdir" path os.Errno.EEXIST), fs) := by
  unfold os.Mkdir
  rw [os.mkdir_of_dirExists fs path h]

/-- A failing `Mkdir` leaves the state as it was. -/
theorem Mkdir_snd_of_error (fs fs1 : os.FS) (path : String) (err : GoError)
    (h : os.Mkdir path fs = (some err, fs1)) : fs1 = fs := by
  unfold os.Mkdir at h
  split at h
  · simp at h
  · simp only [Prod.mk.injEq] at h
    exact h.2.symm

/-- When `Mkdir` fails, `Provision` returns no volume, `ProvisioningFinished`
and the wrapped error, and the state is as before. -/
theorem Provision_of_Mkdir_error (nfs : nfsProvisioner) (opt : ProvisionOptions)
    (fs fs1 : os.FS) (err : GoError)
    (h : os.Mkdir (filepath.Join nfs.mountPath opt.PVName) fs = (some err, fs1)) :
    nfs.Provision opt fs =
      (.returned (none, ProvisioningState.ProvisioningFinished,
        some (GoError.Wrap err "mkdir error")), fs) := by
  have hfs := Mkdir_snd_of_error fs fs1 _ err h
  unfold nfsProvisioner.Provision
  simp only [h, hfs]

/-- What a successful `Provision` says: `Mkdir` succeeded, none of the pointers
it dereferences was nil, and the volume is the one built from the request. -/
theorem Provision_ok (nfs : nfsProvisioner) (opt : ProvisionOptions) (fs fs1 : os.FS)
    (pv : PersistentVolume) (st : ProvisioningState)
    (h : nfs.Provision opt fs = (.returned (some pv, st, none), fs1)) :
    os.Mkdir (filepath.Join nfs.mountPath opt.PVName) fs = (none, fs1) ∧
    st = ProvisioningState.ProvisioningFinished ∧
    ∃ sc policy pvc, opt.StorageClass = some sc ∧ sc.ReclaimPolicy = some policy ∧
      opt.PVC = some pvc ∧
      pv =
        { Name := opt.PVName
          Spec :=
            { PersistentVolumeReclaimPolicy := policy
              AccessModes := pvc.AccessModes
              MountOptions := sc.MountOptions
              Capacity := [(ResourceStorage, ResourceList.index pvc.Requests ResourceStorage)]
              NFS := some
                { Server := nfs.server
                  Path := filepath.Join nfs.rootMountPath opt.PVName
                  ReadOnly := false } } } := by
  unfold nfsProvisioner.Provision at h
  cases hm : os.Mkdir (filepath.Join nfs.mountPath opt.PVName) fs with
  | mk err fs2 =>
    cases err with
    | some err => simp [hm] at h
    | none =>
      simp only [hm] at h
      cases hsc : opt.StorageClass with
      | none => simp [hsc] at h
      | some sc =>
        cases hrp : sc.ReclaimPolicy with
        | none => simp [hsc, hrp] at h
        | some policy =>
          cases hpvc : opt.PVC with
          | none => simp [hsc, hrp, hpvc] at h
          | some pvc =>
            simp only [hsc, hrp, hpvc, Prod.mk.injEq, Outcome.returned.injEq,
              Option.some.injEq, and_true] at h
            obtain ⟨⟨hpv, hst⟩, hfs⟩ := h
            exact ⟨by rw [hfs], hst.symm, sc, policy, pvc, rfl, hrp, rfl, hpv.symm⟩

/-- An existing name below the root is gone from the state once erased, so the
state has changed. -/
theorem erase_ne_self (fs : os.FS) (p : List String) (k : os.Kind) (hp : p ≠ [])
    (hl : fs.lookup p = some k) : fs.erase p ≠ fs := by
  intro h
  have hnone := os.lookup_erase_self fs p hp
  rw [h, hl] at hnone
  cases hnone

/-- After erasing what a path resolves to, the path names no directory. -/
theorem not_dirExists_erase (fs : os.FS) (path : String) (hp : fs.resolve path ≠ []) :
    ¬ (fs.erase (fs.resolve path)).DirExists path := by
  intro hd
  have hl := os.lookup_erase_self fs (fs.resolve path) hp
  have hd3 := hd.2.2
  have hres : (fs.erase (fs.resolve path)).resolve path = fs.resolve path := rfl
  rw [hres, hl] at hd3
  cases hd3

/-- On a writable volume `Delete` removes the volume's directory when it exists,
is an ordinary entry and is empty. -/
theorem Delete_empty_dir (nfs : nfsProvisioner) (pv : PersistentVolume) (fs : os.FS)
    (hex : fs.DirExists (filepath.Join nfs.mountPath pv.Name))
    (hord : fs.Ordinary (filepath.Join nfs.mountPath pv.Name))
    (hc : fs.hasChild (fs.resolve (filepath.Join nfs.mountPath pv.Name)) = false)
    (hro : fs.readOnly = false) :
    nfs.Delete (some pv) fs =
      (.returned none, fs.erase (fs.resolve (filepath.Join nfs.mountPath pv.Name))) := by
  unfold nfsProvisioner.Delete
  simp only [os.Remove_empty_dir fs _ hex hord hc hro]

/-- On a writable volume `Delete` of a directory with something in it returns
the `ENOTEMPTY` error and changes nothing. -/
theorem Delete_nonempty_dir (nfs : nfsProvisioner) (pv : PersistentVolume) (fs : os.FS)
    (hex : fs.DirExists (filepath.Join nfs.mountPath pv.Name))
    (hord : fs.Ordinary (filepath.Join nfs.mountPath pv.Name))
    (hc : fs.hasChild (fs.resolve (filepath.Join nfs.mountPath pv.Name)) = true)
    (hro : fs.readOnly = false) :
    nfs.Delete (some pv) fs =
      (.returned (some (GoError.PathError "remove" (filepath.Join nfs.mountPath pv.Name)
        os.Errno.ENOTEMPTY)), fs) := by
  unfold nfsProvisioner.Delete
  simp only [os.Remove_nonempty_dir fs _ hex hord hc hro]

/-- On a read-only volume `Delete` returns the `EROFS` error and changes
nothing. -/
theorem Delete_readOnly_dir (nfs : nfsProvisioner) (pv : PersistentVolume) (fs : os.FS)
    (hex : fs.DirExists (filepath.Join nfs.mountPath pv.Name))
    (hord : fs.Ordinary (filepath.Join nfs.mountPath pv.Name))
    (hro : fs.readOnly = true) :
    nfs.Delete (some pv) fs =
      (.returned (some (GoError.PathError "remove" (filepath.Join nfs.mountPath pv.Name)
        os.Errno.EROFS)), fs) := by
  unfold nfsProvisioner.Delete
  simp only [os.Remove_readOnly_dir fs _ hex hord hro]

/-- The model of `filepath.Join` on the examples of the Go documentation and on
the paths of the scenario. -/
theorem Join_examples :
    filepath.Join "a" "b/c" = "a/b/c" ∧ filepath.Join "a/b" "/c" = "a/b/c" ∧
      filepath.Join "a/b" "../../../xyz" = "../xyz" ∧ filepath.Join "a" "" = "a" ∧
      filepath.Join "" "b" = "b" ∧ filepath.Join "" "" = "" ∧
      filepath.Join "/mount" "pv-pvc-1" = "/mount/pv-pvc-1" ∧
      filepath.Join "root" "pv-pvc-1" = "root/pv-pvc-1" :=
  ⟨by decide, by decide, by decide, by decide, by decide, by decide, by decide, by decide⟩

/-- A call of `Provision` keeps the filesystem state well-formed, however it
ends. -/
theorem Provision_WF (nfs : nfsProvisioner) (opt : ProvisionOptions) (fs : os.FS)
    (hwf : fs.WF) : (nfs.Provision opt fs).2.WF := by
  have key : ∀ (r : Option GoError) (fs1 : os.FS),
      os.Mkdir (filepath.Join nfs.mountPath opt.PVName) fs = (r, fs1) → fs1.WF := by
    intro r fs1 hm
    cases r with
    | some err => rw [Mkdir_snd_of_error fs fs1 _ err hm]; exact hwf
    | none => exact os.WF_mkdir fs fs1 _ hwf (Mkdir_ok fs fs1 _ hm)
  unfold nfsProvisioner.Provision
  cases hm : os.Mkdir (filepath.Join nfs.mountPath opt.PVName) fs with
  | mk r fs1 =>
    have hwf1 := key r fs1 hm
    cases r with
    | some err => simpa only [hm] using hwf1
    | none =>
      cases hsc : opt.StorageClass with
      | none => simpa only [hm, hsc] using hwf1
      | some sc =>
        cases hrp : sc.ReclaimPolicy with
        | none => simpa only [hm, hsc, hrp] using hwf1
        | some policy =>
          cases hpvc : opt.PVC with
          | none => simpa only [hm, hsc, hrp, hpvc] using hwf1
          | some pvc => simpa only [hm, hsc, hrp, hpvc] using hwf1

/-- A call of `Delete` keeps the filesystem state well-formed. -/
theorem Delete_WF (nfs : nfsProvisioner) (pv : Option PersistentVolume) (fs : os.FS)
    (hwf : fs.WF) : (nfs.Delete pv fs).2.WF := by
  unfold nfsProvisioner.Delete
  cases pv with
  | none => exact hwf
  | some v =>
    cases hr : os.Remove (filepath.Join nfs.mountPath v.Name) fs with
    | mk err fs1 =>
      have := os.WF_Remove fs fs1 _ err hwf hr
      simpa only [hr] using this

/-! ## The claims -/

/-- C1, as stated, fails: in the state where `/mount/pv-pvc-1` already exists
`Provision` returns no volume and the wrapped `EEXIST`; and of two calls in a row
from the fresh state the first succeeds and the second fails. -/
theorem C1_provision_not_idempotent :
    scenario.fsProvisioned.DirExists
        (filepath.Join scenario.nfs.mountPath scenario.opt.PVName) ∧
      scenario.nfs.Provision scenario.opt scenario.fsProvisioned =
        (.returned (none, ProvisioningState.ProvisioningFinished,
          some (GoError.Wrap (GoError.PathError "mkdir" "/mount/pv-pvc-1" os.Errno.EEXIST)
            "mkdir error")), scenario.fsProvisioned) ∧
      (scenario.nfs.Provision scenario.opt scenario.fsFresh).1 =
        .returned (some scenario.pv, ProvisioningState.ProvisioningFinished, none) ∧
      (scenario.nfs.Provision scenario.opt
          (scenario.nfs.Provision scenario.opt scenario.fsFresh).2).1 =
        .returned (none, ProvisioningState.ProvisioningFinished,
          some (GoError.Wrap (GoError.PathError "mkdir" "/mount/pv-pvc-1" os.Errno.EEXIST)
            "mkdir error")) := by
  decide

/-- C1, amended: when the directory for the request's identity already exists,
`Provision` fails: it returns no volume, `ProvisioningFinished` and the `mkdir`
failure `EEXIST` wrapped as `mkdir error`, and leaves the filesystem unchanged.
So a second call in a row, after a first that succeeded, fails in this way. -/
theorem C1_provision_on_existing_directory (nfs : nfsProvisioner) (opt : ProvisionOptions)
    (fs : os.FS) :
    (fs.DirExists (filepath.Join nfs.mountPath opt.PVName) →
      nfs.Provision opt fs =
        (.returned (none, ProvisioningState.ProvisioningFinished,
          some (GoError.Wrap
            (GoError.PathError "mkdir" (filepath.Join nfs.mountPath opt.PVName) os.Errno.EEXIST)
            "mkdir error")), fs)) ∧
    (∀ pv st fs1, nfs.Provision opt fs = (.returned (some pv, st, none), fs1) →
      nfs.Provision opt fs1 =
        (.returned (none, ProvisioningState.ProvisioningFinished,
          some (GoError.Wrap
            (GoError.PathError "mkdir" (filepath.Join nfs.mountPath opt.PVName) os.Errno.EEXIST)
            "mkdir error")), fs1)) := by
  constructor
  · intro h
    exact Provision_of_Mkdir_error nfs opt fs fs _ (Mkdir_of_dirExists fs _ h)
  · intro pv st fs1 h
    have hm := (Provision_ok nfs opt fs fs1 pv st h).1
    have hex := os.mkdir_dirExists fs fs1 _ (Mkdir_ok fs fs1 _ hm)
    exact Provision_of_Mkdir_error nfs opt fs1 fs1 _ (Mkdir_of_dirExists fs1 _ hex)

/-- C1, amended, at the scenario: the existing directory makes `Provision` fail,
and so does the second of two calls in a row. -/
theorem C1_provision_on_existing_directory_witness :
    scenario.fsProvisioned.DirExists
        (filepath.Join scenario.nfs.mountPath scenario.opt.PVName) ∧
      scenario.nfs.Provision scenario.opt scenario.fsFresh =
        (.returned (some scenario.pv, ProvisioningState.ProvisioningFinished, none),
          scenario.fsProvisioned) ∧
      scenario.nfs.Provision scenario.opt scenario.fsProvisioned =
        (.returned (none, ProvisioningState.ProvisioningFinished,
          some (GoError.Wrap
            (GoError.PathError "mkdir"
              (filepath.Join scenario.nfs.mountPath scenario.opt.PVName) os.Errno.EEXIST)
            "mkdir error")), scenario.fsProvisioned) :=
  ⟨by decide, by decide,
    (C1_provision_on_existing_directory scenario.nfs scenario.opt scenario.fsProvisioned).1
      (by decide)⟩

/-- C2, as stated, fails: once the volume's directory holds a file, `Delete`
returns the `ENOTEMPTY` error of `os.Remove` and the directory is still there. -/
theorem C2_delete_refuses_nonempty_directory :
    scenario.fsUsed.DirExists (filepath.Join scenario.nfs.mountPath scenario.pv.Name) ∧
      scenario.nfs.Delete (some scenario.pv) scenario.fsUsed =
        (.returned (some (GoError.PathError "remove" "/mount/pv-pvc-1" os.Errno.ENOTEMPTY)),
          scenario.fsUsed) := by
  decide

/-- C2, amended: when the volume's backend directory exists and is an ordinary
entry (not the root, not spelled with a final `.` or `..`): on a writable
filesystem, if the directory is empty `Delete` returns success and afterwards
the directory no longer exists, and if it has something in it `Delete` returns
the `ENOTEMPTY` error and leaves the filesystem unchanged; on a read-only
filesystem `Delete` returns the `EROFS` error and leaves the filesystem
unchanged. -/
theorem C2_delete_removes_empty_directory (nfs : nfsProvisioner) (pv : PersistentVolume)
    (fs : os.FS)
    (hex : fs.DirExists (filepath.Join nfs.mountPath pv.Name))
    (hord : fs.Ordinary (filepath.Join nfs.mountPath pv.Name)) :
    (fs.readOnly = false →
      fs.hasChild (fs.resolve (filepath.Join nfs.mountPath pv.Name)) = false →
      nfs.Delete (some pv) fs =
          (.returned none, fs.erase (fs.resolve (filepath.Join nfs.mountPath pv.Name))) ∧
        (fs.erase (fs.resolve (filepath.Join nfs.mountPath pv.Name))).lookup
          (fs.resolve (filepath.Join nfs.mountPath pv.Name)) = none ∧
        ¬ (fs.erase (fs.resolve (filepath.Join nfs.mountPath pv.Name))).DirExists
          (filepath.Join nfs.mountPath pv.Name)) ∧
    (fs.readOnly = false →
      fs.hasChild (fs.resolve (filepath.Join nfs.mountPath pv.Name)) = true →
      nfs.Delete (some pv) fs =
        (.returned (some (GoError.PathError "remove" (filepath.Join nfs.mountPath pv.Name)
          os.Errno.ENOTEMPTY)), fs)) ∧
    (fs.readOnly = true →
      nfs.Delete (some pv) fs =
        (.returned (some (GoError.PathError "remove" (filepath.Join nfs.mountPath pv.Name)
          os.Errno.EROFS)), fs)) := by
  refine ⟨?_, ?_, ?_⟩
  · intro hro hc
    exact ⟨Delete_empty_dir nfs pv fs hex hord hc hro,
      os.lookup_erase_self fs _ hord.2.2, not_dirExists_erase fs _ hord.2.2⟩
  · intro hro hc
    exact Delete_nonempty_dir nfs pv fs hex hord hc hro
  · intro hro
    exact Delete_readOnly_dir nfs pv fs hex hord hro

/-- C2, amended, at the scenario: the empty directory of `pv-pvc-1` is removed,
back to the fresh state; once it holds a file `Delete` returns `ENOTEMPTY`; and
on the read-only mount it returns `EROFS`. -/
theorem C2_delete_removes_empty_directory_witness :
    (scenario.fsProvisioned.DirExists (filepath.Join scenario.nfs.mountPath scenario.pv.Name) ∧
      scenario.fsProvisioned.erase
          (scenario.fsProvisioned.resolve
            (filepath.Join scenario.nfs.mountPath scenario.pv.Name)) = scenario.fsFresh ∧
      scenario.nfs.Delete (some scenario.pv) scenario.fsProvisioned =
        (.returned none,
          scenario.fsProvisioned.erase
            (scenario.fsProvisioned.resolve
              (filepath.Join scenario.nfs.mountPath scenario.pv.Name)))) ∧
    scenario.nfs.Delete (some scenario.pv) scenario.fsUsed =
      (.returned (some (GoError.PathError "remove"
        (filepath.Join scenario.nfs.mountPath scenario.pv.Name) os.Errno.ENOTEMPTY)),
        scenario.fsUsed) ∧
    scenario.nfs.Delete (some scenario.pv) scenario.fsReadOnly =
      (.returned (some (GoError.PathError "remove"
        (filepath.Join scenario.nfs.mountPath scenario.pv.Name) os.Errno.EROFS)),
        scenario.fsReadOnly) :=
  ⟨⟨by decide, by decide,
    ((C2_delete_removes_empty_directory scenario.nfs scenario.pv scenario.fsProvisioned
      (by decide) (by decide)).1 (by decide) (by decide)).1⟩,
   (C2_delete_removes_empty_directory scenario.nfs scenario.pv scenario.fsUsed
      (by decide) (by decide)).2.1 (by decide) (by decide),
   (C2_delete_removes_empty_directory scenario.nfs scenario.pv scenario.fsReadOnly
      (by decide) (by decide)).2.2 (by decide)⟩

/-- C3: the name of the volume a successful `Provision` returns is the identity
`opt.PVName` it was given; two successful runs given the same identity return
volumes of the same name, whatever the configurations, the filesystem states,
the claims and the classes. -/
theorem C3_volume_name_is_identity (nfs1 nfs2 : nfsProvisioner) (opt1 opt2 : ProvisionOptions)
    (fs1 fs2 fs1a fs2a : os.FS) (pv1 pv2 : PersistentVolume) (st1 st2 : ProvisioningState)
    (h1 : nfs1.Provision opt1 fs1 = (.returned (some pv1, st1, none), fs1a))
    (h2 : nfs2.Provision opt2 fs2 = (.returned (some pv2, st2, none), fs2a))
    (hid : opt1.PVName = opt2.PVName) :
    pv1.Name = pv2.Name ∧ pv1.Name = opt1.PVName := by
  obtain ⟨_, _, sc1, p1, c1, _, _, _, hpv1⟩ := Provision_ok nfs1 opt1 fs1 fs1a pv1 st1 h1
  obtain ⟨_, _, sc2, p2, c2, _, _, _, hpv2⟩ := Provision_ok nfs2 opt2 fs2 fs2a pv2 st2 h2
  rw [hpv1, hpv2]
  exact ⟨hid, rfl⟩

/-- C3 at the scenario: the claim provisioned under `standard` by one strategy
on one filesystem, and under `standard-retain` by another on another, gets the
volume name `pv-pvc-1` both times. -/
theorem C3_volume_name_is_identity_witness :
    scenario.nfs.Provision scenario.opt scenario.fsFresh =
        (.returned (some scenario.pv, ProvisioningState.ProvisioningFinished, none),
          scenario.fsProvisioned) ∧
      scenario.nfsOther.Provision scenario.optRetain scenario.fsOther =
        (.returned (some scenario.pvOther, ProvisioningState.ProvisioningFinished, none),
          scenario.fsOtherProvisioned) ∧
      scenario.pv.Name = scenario.pvOther.Name ∧ scenario.pv.Name = scenario.opt.PVName :=
  ⟨by decide, by decide,
    C3_volume_name_is_identity scenario.nfs scenario.nfsOther scenario.opt scenario.optRetain
      scenario.fsFresh scenario.fsOther scenario.fsProvisioned scenario.fsOtherProvisioned
      scenario.pv scenario.pvOther ProvisioningState.ProvisioningFinished
      ProvisioningState.ProvisioningFinished (by decide) (by decide) (by decide)⟩

/-- C4, as stated, fails: for claim `pvc-1` provisioned as `pv-pvc-1` the
recorded backend path is `root/pv-pvc-1`, not `root/pvc-1`, and the directory
created is `/mount/pv-pvc-1`: nothing exists at `root/pvc-1` or `/mount/pvc-1`
afterwards. -/
theorem C4_backend_path_uses_volume_name :
    scenario.opt.PVC = some scenario.pvc1 ∧
      filepath.Join scenario.nfs.rootMountPath scenario.pvc1.Name = "root/pvc-1" ∧
      scenario.nfs.Provision scenario.opt scenario.fsFresh =
        (.returned (some scenario.pv, ProvisioningState.ProvisioningFinished, none),
          scenario.fsProvisioned) ∧
      scenario.pv.Spec.NFS =
        some { Server := "10.0.0.1", Path := "root/pv-pvc-1", ReadOnly := false } ∧
      scenario.fsProvisioned.nodes =
        (["mount", "pv-pvc-1"], os.Kind.dir) :: scenario.fsFresh.nodes ∧
      scenario.fsProvisioned.lookup (scenario.fsProvisioned.resolve "root/pvc-1") = none ∧
      scenario.fsProvisioned.lookup (scenario.fsProvisioned.resolve "/mount/pvc-1") = none :=
  ⟨by decide, by decide, by decide, by decide, by decide, by decide, by decide⟩

/-- C4, amended: whenever `Provision` succeeds, the one directory it created is
at `mountPath` joined with the volume name handed to it (`opt.PVName`), which
did not exist before, and the backend path recorded in the returned volume is
`rootMountPath` joined with that same volume name (for claim `pvc-1` provisioned
as `pv-pvc-1`: `root/pv-pvc-1`). -/
theorem C4_backend_location (nfs : nfsProvisioner) (opt : ProvisionOptions) (fs fs1 : os.FS)
    (pv : PersistentVolume) (st : ProvisioningState)
    (h : nfs.Provision opt fs = (.returned (some pv, st, none), fs1)) :
    fs.lookup (fs.resolve (filepath.Join nfs.mountPath opt.PVName)) = none ∧
    fs1 = { fs with
      nodes := (fs.resolve (filepath.Join nfs.mountPath opt.PVName), os.Kind.dir) :: fs.nodes } ∧
    fs1.DirExists (filepath.Join nfs.mountPath opt.PVName) ∧
    pv.Spec.NFS =
      some { Server := nfs.server
             Path := filepath.Join nfs.rootMountPath opt.PVName
             ReadOnly := false } := by
  obtain ⟨hm, _, sc, policy, pvc, _, _, _, hpv⟩ := Provision_ok nfs opt fs fs1 pv st h
  have hmk := Mkdir_ok fs fs1 _ hm
  obtain ⟨_, _, _, _, hl, _, _, hfs⟩ := os.mkdir_ok fs fs1 _ hmk
  refine ⟨hl, hfs, os.mkdir_dirExists fs fs1 _ hmk, ?_⟩
  rw [hpv]

/-- C4, amended, at the scenario: `/mount/pv-pvc-1` is created and the recorded
path is `root/pv-pvc-1`. -/
theorem C4_backend_location_witness :
    scenario.nfs.Provision scenario.opt scenario.fsFresh =
        (.returned (some scenario.pv, ProvisioningState.ProvisioningFinished, none),
          scenario.fsProvisioned) ∧
      scenario.fsProvisioned.DirExists "/mount/pv-pvc-1" ∧
      scenario.pv.Spec.NFS =
        some { Server := "10.0.0.1", Path := "root/pv-pvc-1", ReadOnly := false } :=
  have h := C4_backend_location scenario.nfs scenario.opt scenario.fsFresh scenario.fsProvisioned
    scenario.pv ProvisioningState.ProvisioningFinished (by decide)
  ⟨by decide, h.2.2.1, h.2.2.2⟩

/-- C5: on every request on which `Provision` succeeds, the class, its reclaim
policy and the claim are present, and the returned volume has capacity exactly
the one entry `storage` holding the claim's requested storage, the claim's
access modes, the class's reclaim policy and mount options, and an NFS source
with the configured server and `ReadOnly = false`. -/
theorem C5_volume_attributes (nfs : nfsProvisioner) (opt : ProvisionOptions) (fs fs1 : os.FS)
    (pv : PersistentVolume) (st : ProvisioningState)
    (h : nfs.Provision opt fs = (.returned (some pv, st, none), fs1)) :
    ∃ sc policy pvc, opt.StorageClass = some sc ∧ sc.ReclaimPolicy = some policy ∧
      opt.PVC = some pvc ∧
      pv.Spec.Capacity = [(ResourceStorage, ResourceList.index pvc.Requests ResourceStorage)] ∧
      (∀ q, pvc.Requests.lookup ResourceStorage = some q →
        pv.Spec.Capacity = [(ResourceStorage, q)]) ∧
      pv.Spec.AccessModes = pvc.AccessModes ∧
      pv.Spec.PersistentVolumeReclaimPolicy = policy ∧
      pv.Spec.MountOptions = sc.MountOptions ∧
      ∃ src, pv.Spec.NFS = some src ∧ src.Server = nfs.server ∧ src.ReadOnly = false := by
  obtain ⟨_, _, sc, policy, pvc, hsc, hrp, hpvc, hpv⟩ := Provision_ok nfs opt fs fs1 pv st h
  refine ⟨sc, policy, pvc, hsc, hrp, hpvc, ?_, ?_, ?_, ?_, ?_, ?_⟩
  · rw [hpv]
  · intro q hq
    rw [hpv]
    simp [ResourceList.index, hq]
  · rw [hpv]
  · rw [hpv]
  · rw [hpv]
  · rw [hpv]
    exact ⟨_, rfl, rfl, rfl⟩

/-- C5 at the scenario: the claim asking 5Gi under `standard` gets a volume with
capacity `storage = 5Gi`, its own access modes, policy `Delete`, the class's
mount options, server `10.0.0.1` and `ReadOnly = false`. -/
theorem C5_volume_attributes_witness :
    scenario.nfs.Provision scenario.opt scenario.fsFresh =
        (.returned (some scenario.pv, ProvisioningState.ProvisioningFinished, none),
          scenario.fsProvisioned) ∧
      scenario.pv.Spec.Capacity = [("storage", scenario.fiveGi)] ∧
      ∃ sc policy pvc, scenario.opt.StorageClass = some sc ∧ sc.ReclaimPolicy = some policy ∧
        scenario.opt.PVC = some pvc ∧
        scenario.pv.Spec.Capacity =
          [(ResourceStorage, ResourceList.index pvc.Requests ResourceStorage)] ∧
        (∀ q, pvc.Requests.lookup ResourceStorage = some q →
          scenario.pv.Spec.Capacity = [(ResourceStorage, q)]) ∧
        scenario.pv.Spec.AccessModes = pvc.AccessModes ∧
        scenario.pv.Spec.PersistentVolumeReclaimPolicy = policy ∧
        scenario.pv.Spec.MountOptions = sc.MountOptions ∧
        ∃ src, scenario.pv.Spec.NFS = some src ∧ src.Server = scenario.nfs.server ∧
          src.ReadOnly = false :=
  ⟨by decide, by decide,
    C5_volume_attributes scenario.nfs scenario.opt scenario.fsFresh scenario.fsProvisioned
      scenario.pv ProvisioningState.ProvisioningFinished (by decide)⟩

/-- C6, as stated, fails: `Delete` applied to the volume with reclaim policy
`Retain` removes its backend directory `/mount/pv-pvc-1`; the filesystem is not
left unchanged. -/
theorem C6_delete_ignores_retain :
    scenario.pvRetain.Spec.PersistentVolumeReclaimPolicy = PersistentVolumeReclaimRetain ∧
      scenario.fsProvisioned.DirExists "/mount/pv-pvc-1" ∧
      scenario.nfs.Delete (some scenario.pvRetain) scenario.fsProvisioned =
        (.returned none, scenario.fsFresh) ∧
      ¬ scenario.fsFresh.DirExists "/mount/pv-pvc-1" ∧
      scenario.fsFresh ≠ scenario.fsProvisioned := by
  decide

/-- C6, amended: the strategy does not honour the reclaim policy. For every
volume whose reclaim policy is retain, in every state where its backend
directory exists, is an ordinary entry, is empty and the filesystem is
writable, `Delete` returns success and removes that directory: the filesystem
is changed and the directory no longer exists. In every state `Delete` gives
any volume of the same name, whatever its policy, the same result and the same
final filesystem. -/
theorem C6_delete_removes_retained_directory (nfs : nfsProvisioner) (pv : PersistentVolume)
    (fs : os.FS)
    (hretain : pv.Spec.PersistentVolumeReclaimPolicy = PersistentVolumeReclaimRetain)
    (hex : fs.DirExists (filepath.Join nfs.mountPath pv.Name))
    (hord : fs.Ordinary (filepath.Join nfs.mountPath pv.Name))
    (hc : fs.hasChild (fs.resolve (filepath.Join nfs.mountPath pv.Name)) = false)
    (hro : fs.readOnly = false) :
    pv.Spec.PersistentVolumeReclaimPolicy = PersistentVolumeReclaimRetain ∧
    nfs.Delete (some pv) fs =
      (.returned none, fs.erase (fs.resolve (filepath.Join nfs.mountPath pv.Name))) ∧
    fs.erase (fs.resolve (filepath.Join nfs.mountPath pv.Name)) ≠ fs ∧
    ¬ (fs.erase (fs.resolve (filepath.Join nfs.mountPath pv.Name))).DirExists
      (filepath.Join nfs.mountPath pv.Name) ∧
    ∀ pv2 : PersistentVolume, pv2.Name = pv.Name →
      ∀ fs2 : os.FS, nfs.Delete (some pv2) fs2 = nfs.Delete (some pv) fs2 := by
  refine ⟨hretain, Delete_empty_dir nfs pv fs hex hord hc hro,
    erase_ne_self fs _ os.Kind.dir hord.2.2 hex.2.2, not_dirExists_erase fs _ hord.2.2, ?_⟩
  intro pv2 hname fs2
  unfold nfsProvisioner.Delete
  simp only [hname]

/-- C6, amended, at the scenario: `Delete` on the retain volume `pv-pvc-1`
removes `/mount/pv-pvc-1`, exactly as on the delete volume of that name. -/
theorem C6_delete_removes_retained_directory_witness :
    scenario.fsProvisioned.DirExists
        (filepath.Join scenario.nfs.mountPath scenario.pvRetain.Name) ∧
      scenario.fsProvisioned.erase
          (scenario.fsProvisioned.resolve
            (filepath.Join scenario.nfs.mountPath scenario.pvRetain.Name)) = scenario.fsFresh ∧
      scenario.pvRetain.Spec.PersistentVolumeReclaimPolicy = PersistentVolumeReclaimRetain ∧
      scenario.nfs.Delete (some scenario.pvRetain) scenario.fsProvisioned =
        (.returned none,
          scenario.fsProvisioned.erase
            (scenario.fsProvisioned.resolve
              (filepath.Join scenario.nfs.mountPath scenario.pvRetain.Name))) ∧
      scenario.fsProvisioned.erase
          (scenario.fsProvisioned.resolve
            (filepath.Join scenario.nfs.mountPath scenario.pvRetain.Name)) ≠
        scenario.fsProvisioned ∧
      ¬ (scenario.fsProvisioned.erase
          (scenario.fsProvisioned.resolve
            (filepath.Join scenario.nfs.mountPath scenario.pvRetain.Name))).DirExists
        (filepath.Join scenario.nfs.mountPath scenario.pvRetain.Name) ∧
      scenario.nfs.Delete (some scenario.pv) scenario.fsUsed =
        scenario.nfs.Delete (some scenario.pvRetain) scenario.fsUsed :=
  have h := C6_delete_removes_retained_directory scenario.nfs scenario.pvRetain
    scenario.fsProvisioned (by decide) (by decide) (by decide) (by decide) (by decide)
  ⟨by decide, by decide, h.1, h.2.1, h.2.2.1, h.2.2.2.1,
    h.2.2.2.2 scenario.pv (by decide) scenario.fsUsed⟩

/-- C7: in every well-formed filesystem state in which `Provision` succeeds,
the path `Delete` builds from the returned volume's name is the path `Provision`
built from the request, the directory at that path is the one thing `Provision`
added, and `Delete` on the returned volume succeeds and restores the filesystem
to its state before `Provision`. -/
theorem C7_provision_delete_round_trip (nfs : nfsProvisioner) (opt : ProvisionOptions)
    (fs fs1 : os.FS) (pv : PersistentVolume) (st : ProvisioningState) (hwf : fs.WF)
    (h : nfs.Provision opt fs = (.returned (some pv, st, none), fs1)) :
    filepath.Join nfs.mountPath pv.Name = filepath.Join nfs.mountPath opt.PVName ∧
    fs.lookup (fs.resolve (filepath.Join nfs.mountPath opt.PVName)) = none ∧
    fs1 = { fs with
      nodes := (fs.resolve (filepath.Join nfs.mountPath opt.PVName), os.Kind.dir) :: fs.nodes } ∧
    nfs.Delete (some pv) fs1 = (.returned none, fs) := by
  obtain ⟨hm, _, sc, policy, pvc, _, _, _, hpv⟩ := Provision_ok nfs opt fs fs1 pv st h
  have hmk := Mkdir_ok fs fs1 _ hm
  obtain ⟨_, _, _, _, hl, _, _, hfs⟩ := os.mkdir_ok fs fs1 _ hmk
  have hname : pv.Name = opt.PVName := by rw [hpv]
  refine ⟨by rw [hname], hl, hfs, ?_⟩
  unfold nfsProvisioner.Delete
  simp only [hname, os.Remove_after_mkdir fs fs1 _ hwf hmk]

/-- C7 at the scenario: provisioning `pv-pvc-1` on the fresh state and deleting
the returned volume ends in the fresh state. -/
theorem C7_provision_delete_round_trip_witness :
    scenario.fsFresh.WF ∧
      scenario.nfs.Provision scenario.opt scenario.fsFresh =
        (.returned (some scenario.pv, ProvisioningState.ProvisioningFinished, none),
          scenario.fsProvisioned) ∧
      scenario.nfs.Delete (some scenario.pv) scenario.fsProvisioned =
        (.returned none, scenario.fsFresh) :=
  ⟨by decide, by decide,
    (C7_provision_delete_round_trip scenario.nfs scenario.opt scenario.fsFresh
      scenario.fsProvisioned scenario.pv ProvisioningState.ProvisioningFinished
      (by decide) (by decide)).2.2.2⟩

/-- C8, as stated, fails: a full disk (`ENOSPC`), a mount path that is a
regular file (`ENOTDIR`) and an existing directory (`EEXIST`) all come back with
the same classification `ProvisioningFinished`; only the wrapped cause
differs. -/
theorem C8_failures_classified_alike :
    scenario.nfs.Provision scenario.opt scenario.fsFull =
        (.returned (none, ProvisioningState.ProvisioningFinished,
          some (GoError.Wrap (GoError.PathError "mkdir" "/mount/pv-pvc-1" os.Errno.ENOSPC)
            "mkdir error")), scenario.fsFull) ∧
      scenario.nfs.Provision scenario.opt scenario.fsMountIsFile =
        (.returned (none, ProvisioningState.ProvisioningFinished,
          some (GoError.Wrap (GoError.PathError "mkdir" "/mount/pv-pvc-1" os.Errno.ENOTDIR)
            "mkdir error")), scenario.fsMountIsFile) ∧
      scenario.nfs.Provision scenario.opt scenario.fsProvisioned =
        (.returned (none, ProvisioningState.ProvisioningFinished,
          some (GoError.Wrap (GoError.PathError "mkdir" "/mount/pv-pvc-1" os.Errno.EEXIST)
            "mkdir error")), scenario.fsProvisioned) :=
  ⟨by decide, by decide, by decide⟩

/-- C8, amended: when directory creation fails, whatever the kind of failure,
`Provision` returns no volume, the one classification `ProvisioningFinished`,
and the backend error wrapped with the message `mkdir error`; the filesystem is
left as it was. The kind of failure shows in the wrapped cause only. -/
theorem C8_failure_result (nfs : nfsProvisioner) (opt : ProvisionOptions) (fs fs1 : os.FS)
    (err : GoError)
    (h : os.Mkdir (filepath.Join nfs.mountPath opt.PVName) fs = (some err, fs1)) :
    nfs.Provision opt fs =
      (.returned (none, ProvisioningState.ProvisioningFinished,
        some (GoError.Wrap err "mkdir error")), fs) := by
  have hfs := Mkdir_snd_of_error fs fs1 _ err h
  unfold nfsProvisioner.Provision
  simp only [h, hfs]

/-- C8, amended, at the scenario: on the full disk `Mkdir` fails with `ENOSPC`
and `Provision` returns it wrapped, with `ProvisioningFinished`. -/
theorem C8_failure_result_witness :
    os.Mkdir (filepath.Join scenario.nfs.mountPath scenario.opt.PVName) scenario.fsFull =
        (some (GoError.PathError "mkdir" "/mount/pv-pvc-1" os.Errno.ENOSPC), scenario.fsFull) ∧
      scenario.nfs.Provision scenario.opt scenario.fsFull =
        (.returned (none, ProvisioningState.ProvisioningFinished,
          some (GoError.Wrap (GoError.PathError "mkdir" "/mount/pv-pvc-1" os.Errno.ENOSPC)
            "mkdir error")), scenario.fsFull) :=
  ⟨by decide,
    C8_failure_result scenario.nfs scenario.opt scenario.fsFull scenario.fsFull _ (by decide)⟩

/-- C9, as stated, fails: with server, serverPath and mountPath all non-empty
but a cluster configuration that cannot be loaded, the process ends in
`log.Fatalf` and no strategy is ever built. -/
theorem C9_strategy_not_built_without_client :
    scenario.flags.server ≠ "" ∧ scenario.flags.serverPath ≠ "" ∧
      scenario.flags.mountPath ≠ "" ∧
      main scenario.envNoCluster scenario.flags =
        [Event.logPrintf "nfs server: 10.0.0.1, rootMountPath: /export",
         Event.buildConfigFromFlags "" "/no/such/file",
         Event.logFatalf
           "initK8sClient error: BuildConfigFromFlags error: stat /no/such/file: no such file or directory"] ∧
      ∀ nfs, Event.newStrategy nfs ∉ main scenario.envNoCluster scenario.flags := by
  refine ⟨by decide, by decide, by decide, by decide, ?_⟩
  intro nfs hmem
  have hmain : main scenario.envNoCluster scenario.flags =
      [Event.logPrintf "nfs server: 10.0.0.1, rootMountPath: /export",
       Event.buildConfigFromFlags "" "/no/such/file",
       Event.logFatalf
         "initK8sClient error: BuildConfigFromFlags error: stat /no/such/file: no such file or directory"] := by
    decide
  rw [hmain] at hmem
  simp at hmem

/-- C9, amended: if server, serverPath or mountPath is empty, the process logs
its first line and terminates fatally, before any cluster client is built or
the controller started. If all three are non-empty the check passes whatever
the values of provisioner, kubeconfig and leaderElection, and the client is
built from kubeconfig: when that fails the process terminates fatally with no
strategy built; when it succeeds the strategy is built with server = server,
rootMountPath = serverPath, mountPath = mountPath and the controller is started
with it, the provisioner name and the leader-election switch. -/
theorem C9_startup_validation {Config Clientset : Type} (env : ClientEnv Config Clientset)
    (f : Flags) :
    ((f.server = "" ∨ f.serverPath = "" ∨ f.mountPath = "") →
      main env f =
        [Event.logPrintf ("nfs server: " ++ f.server ++ ", rootMountPath: " ++ f.serverPath),
         Event.logFatalf "flag server/serverPath/mountPath not set"]) ∧
    ((f.server ≠ "" ∧ f.serverPath ≠ "" ∧ f.mountPath ≠ "") →
      (∀ err, (initK8sClient env f.kubeconfig).2 = .error err →
        main env f =
          [Event.logPrintf ("nfs server: " ++ f.server ++ ", rootMountPath: " ++ f.serverPath)]
            ++ (initK8sClient env f.kubeconfig).1
            ++ [Event.logFatalf ("initK8sClient error: " ++ err)]) ∧
      (∀ client, (initK8sClient env f.kubeconfig).2 = .ok client →
        main env f =
          [Event.logPrintf ("nfs server: " ++ f.server ++ ", rootMountPath: " ++ f.serverPath)]
            ++ (initK8sClient env f.kubeconfig).1
            ++ [Event.newStrategy
                  { server := f.server, rootMountPath := f.serverPath, mountPath := f.mountPath },
                Event.runController client f.provisoner
                  { server := f.server, rootMountPath := f.serverPath, mountPath := f.mountPath }
                  f.leaderElection])) := by
  constructor
  · intro h
    unfold main
    simp only [h, if_true]
    rfl
  · intro h
    have hn : ¬ (f.server = "" ∨ f.serverPath = "" ∨ f.mountPath = "") := by
      intro hc
      rcases hc with hc | hc | hc
      · exact h.1 hc
      · exact h.2.1 hc
      · exact h.2.2 hc
    constructor
    · intro err herr
      unfold main
      simp only [hn, if_false]
      cases hk : initK8sClient env f.kubeconfig with
      | mk t r =>
        rw [hk] at herr
        simp only at herr
        subst herr
        rfl
    · intro client hok
      unfold main
      simp only [hn, if_false]
      cases hk : initK8sClient env f.kubeconfig with
      | mk t r =>
        rw [hk] at hok
        simp only at hok
        subst hok
        rfl

/-- C9, amended, at the scenario: with the defaults (server and serverPath
empty) the process stops at the flag check; with the three values set and a
cluster that answers, the controller is started with the strategy built from
them. -/
theorem C9_startup_validation_witness :
    main scenario.envCluster Flags.defaults =
        [Event.logPrintf "nfs server: , rootMountPath: ",
         Event.logFatalf "flag server/serverPath/mountPath not set"] ∧
      main scenario.envCluster scenario.flags =
        [Event.logPrintf "nfs server: 10.0.0.1, rootMountPath: /export",
         Event.buildConfigFromFlags "" "/no/such/file",
         Event.newForConfig,
         Event.newStrategy
           { server := "10.0.0.1", rootMountPath := "/export", mountPath := "/mount" },
         Event.runController ()  "nfs"
           { server := "10.0.0.1", rootMountPath := "/export", mountPath := "/mount" } false] :=
  ⟨(C9_startup_validation scenario.envCluster Flags.defaults).1 (Or.inl rfl),
    ((C9_startup_validation scenario.envCluster scenario.flags).2
      ⟨by decide, by decide, by decide⟩).2 () rfl⟩

/-- C10 fails on the code: for the request whose class has a nil reclaim
policy, `Provision` first creates `/mount/pv-pvc-1` and then panics on the nil
dereference; it neither returns an error nor removes the directory. -/
theorem C10_provision_panics_on_nil_reclaim_policy :
    scenario.optMalformed.StorageClass = some scenario.malformed ∧
      scenario.malformed.ReclaimPolicy = none ∧
      scenario.nfs.Provision scenario.optMalformed scenario.fsFresh =
        (.panicked nilDeref, scenario.fsProvisioned) ∧
      scenario.fsProvisioned.DirExists "/mount/pv-pvc-1" ∧
      ¬ scenario.fsFresh.DirExists "/mount/pv-pvc-1" := by
  decide

end NfsProvisioner
